import Mathlib

/-!
Verification of the preview traffic composition engine
(`create-preview-sample`, Go).

Shallow embedding: Go strings are modelled as `List Char`; Go maps as
insertion-ordered association lists; fallible/panicking Go code returns
`GoResult`.  Each definition is translated from the Go source; the file,
line numbers and the Go text are cited in the doc comments.
-/

/-- Go strings, modelled as lists of characters. -/
abbrev GoStr := List Char

/-- Literal helper: a Lean string literal viewed as a `GoStr`. -/
def gs (s : String) : GoStr := s.toList

/-- Outcome of a Go function call: normal value, returned `error`, or a
runtime panic (nil-map write / nil-pointer dereference).  The panic payload
is the Go runtime message. -/
inductive GoResult (α : Type) where
  | ok : α → GoResult α
  | err : GoStr → GoResult α
  | panic : GoStr → GoResult α
deriving DecidableEq

/-- Go runtime message for a write to an entry of a nil map. -/
def nilMapWriteMsg : GoStr := gs "assignment to entry in nil map"

/-- Go runtime message for dereferencing a nil pointer. -/
def nilDerefMsg : GoStr := gs "runtime error: invalid memory address or nil pointer dereference"

/-- `main.go` line 21: `const previewPrefixName = "pr"`. -/
def previewPrefixName : GoStr := gs "pr"

/-- `main.go` lines 42-44:
`func previewName(origin, version string) string {
   return fmt.Sprintf("%s%s-%s", previewPrefixName, version, origin) }`. -/
def previewName (origin version : GoStr) : GoStr :=
  previewPrefixName ++ version ++ gs "-" ++ origin

/-- `main.go` lines 46-52:
`func getVersionFromPreview(s string) string {
   if !strings.HasPrefix(s, previewPrefixName) { return s }
   sp := strings.SplitN(s[len(previewPrefixName):], "-", 2)
   return sp[0] }`.
`sp[0]` of `SplitN(t, "-", 2)` is the part of `t` before the first `'-'`
(all of `t` when `t` has no `'-'`), i.e. `t.takeWhile (· != '-')`. -/
def getVersionFromPreview (s : GoStr) : GoStr :=
  if previewPrefixName.isPrefixOf s then
    (s.drop previewPrefixName.length).takeWhile (fun c => c != '-')
  else s

/-- `main.go` lines 54-56:
`fmt.Sprintf("%s%s-virtual-service", previewPrefixName, originSvc)`. -/
def previewVirtualServiceName (originSvc : GoStr) : GoStr :=
  previewPrefixName ++ originSvc ++ gs "-virtual-service"

/-- `main.go` lines 58-60:
`fmt.Sprintf("%s-gateway-virtual-service", previewName(originSvc, version))`. -/
def previewGatewayVirtualServiceName (originSvc version : GoStr) : GoStr :=
  previewName originSvc version ++ gs "-gateway-virtual-service"

example : gs "pr" = ['p', 'r'] := by decide
example : previewName (gs "checkout") (gs "42") = gs "pr42-checkout" := by decide
example : getVersionFromPreview (gs "pr42-checkout") = gs "42" := by decide

/-! ## Go maps

Go maps are modelled as insertion-ordered association lists.  A *nil* map
(the zero value) is distinguished from a non-nil map, where it matters,
by wrapping in `Option`: reading a nil map yields the zero value, but
writing to a nil map panics.  NOTE: Go's map iteration order is
unspecified; the model fixes the list order, and every place the source
ranges over a map is annotated with what the source actually depends on. -/

/-- A (non-nil) Go map, as an association list. -/
abbrev GoMap := List (GoStr × GoStr)

/-- `m[k]` with the `ok` bit: the first binding of `k`. -/
def mapLookup (m : GoMap) (k : GoStr) : Option GoStr :=
  (m.find? (fun p => p.1 == k)).map (fun p => p.2)

/-- `m[k] = v` on a non-nil map: update in place, or append a new binding. -/
def mapInsert (m : GoMap) (k v : GoStr) : GoMap :=
  if (m.find? (fun p => p.1 == k)).isSome then
    m.map (fun p => if p.1 == k then (k, v) else p)
  else m ++ [(k, v)]

/-! ## Workload registry objects (`corev1.Service`, `appsv1.Deployment`)

Only the fields the program touches are modelled. -/

/-- `corev1.Service`: name, `ObjectMeta.Labels` (a possibly-nil map — the
zero Service has a nil labels map) and `Spec.Selector`.  The selector is
kept as a plain `GoMap`: the source only ranges over it and writes to it
after finding it non-empty (hence non-nil), so nil and empty coincide
behaviourally. -/
structure Service where
  name : GoStr
  labels : Option GoMap
  selector : GoMap
deriving DecidableEq

/-- The zero value `corev1.Service`: empty name, nil labels, nil selector. -/
def zeroService : Service := { name := [], labels := none, selector := [] }

/-- `part_000` lines 77-83: scan `svcs.Items` for the first item whose
`Name` equals `name` (the loop `break`s on the first hit); otherwise the
zero value `corev1.Service` is kept. -/
def findBaseSvc (svcs : List Service) (name : GoStr) : Service :=
  match svcs.find? (fun s => s.name == name) with
  | some s => s
  | none => zeroService

/-- `part_000` lines 108-111: `type deploySelector struct { key, value string }`. -/
structure deploySelector where
  key : GoStr
  value : GoStr
deriving DecidableEq

/-- `part_000` lines 86-91: `for k, v := range baseSvc.Spec.Selector {
selector = &deploySelector{key: k, value: v} }` — no `break`, so the
*last* iterated entry wins (Go iteration order is unspecified; the model
takes the last list entry).  `none` when the map is empty. -/
def lastSelectorEntry (m : GoMap) : Option deploySelector :=
  m.getLast?.map (fun p => { key := p.1, value := p.2 })

/-- `part_000` lines 66-106, `createService`.  `clientErr` is the error
result of `newK8sClient()` (line 67); its guard is written correctly
(`if err != nil`).  The `List` call and the final `itf.Create` are
modelled as succeeding (remote-transport failures are out of the modelled
state); `ResourceVersion = ""` touches no modelled field.  The source
returns only the selector; the model also returns the Service passed to
`Create` so that callers can thread cluster state.

Panic point (lines 99-100): `newSvc.Labels[selector.key] = ...` writes to
`ObjectMeta.Labels`, which is nil for a service that carries no labels —
an unguarded nil-map write.  The subsequent `newSvc.Spec.Selector[...]`
write is safe because the selector was just found non-empty. -/
def createService (clientErr : Option GoStr) (svcs : List Service)
    (name version : GoStr) : GoResult (deploySelector × Service) :=
  match clientErr with
  | some e => .err e
  | none =>
    let baseSvc := findBaseSvc svcs name
    match lastSelectorEntry baseSvc.selector with
    | none => .err (gs "not found selector from service " ++ name)
    | some sel =>
      match baseSvc.labels with
      | none => .panic nilMapWriteMsg
      | some lbls =>
        let nv := previewName sel.value version
        .ok (sel,
          { name := previewName baseSvc.name version,
            labels := some (mapInsert lbls sel.key nv),
            selector := mapInsert baseSvc.selector sel.key nv })

/-- `appsv1.Deployment`: name, `Spec.Selector` (a *pointer* to a
LabelSelector — `none` models the nil pointer of the zero Deployment;
`some m` models a non-nil selector with match-labels `m`), and
`Spec.Template.Labels` (a possibly-nil map). -/
structure Deployment where
  name : GoStr
  selector : Option GoMap
  templateLabels : Option GoMap
deriving DecidableEq

/-- The zero value `appsv1.Deployment`: empty name, nil selector pointer,
nil pod-template labels. -/
def zeroDeployment : Deployment :=
  { name := [], selector := none, templateLabels := none }

/-- `part_000` lines 124-134: scan `deps.Items` for the first item with
`item.Spec.Selector.MatchLabels[selector.key] == selector.value`
(`break` on the first hit; `continue` when the key is absent); otherwise
the zero value Deployment is kept.  Reading `.MatchLabels` through a nil
`Spec.Selector` pointer would panic. -/
def findBaseDeploy : List Deployment → deploySelector → GoResult Deployment
  | [], _ => .ok zeroDeployment
  | d :: ds, sel =>
    match d.selector with
    | none => .panic nilDerefMsg
    | some m =>
      match mapLookup m sel.key with
      | none => findBaseDeploy ds sel
      | some val => if val == sel.value then .ok d else findBaseDeploy ds sel

/-- `part_000` lines 113-148, `createDeploy`.  `clientErr` is the result
of `newK8sClient()` (line 114, guard written correctly); `List` and the
final `Create` are modelled as succeeding, and the model returns the
Deployment passed to `Create`.

Panic point (line 139):
`newDeploy.Spec.Selector.MatchLabels[selector.key] = ...` — when no
workload matched, `baseDeploy` is the zero Deployment whose
`Spec.Selector` is a nil pointer, so this write dereferences nil and
panics.  Line 140-142 first *reads* `Spec.Template.Labels` (reading a nil
map is safe) and only writes when the key is present. -/
def createDeploy (clientErr : Option GoStr) (deps : List Deployment)
    (sel : deploySelector) (version : GoStr) : GoResult Deployment :=
  match clientErr with
  | some e => .err e
  | none =>
    match findBaseDeploy deps sel with
    | .err e => .err e
    | .panic m => .panic m
    | .ok baseDeploy =>
      match baseDeploy.selector with
      | none => .panic nilDerefMsg
      | some m =>
        let nv := previewName sel.value version
        let tl :=
          match baseDeploy.templateLabels with
          | none => none
          | some t =>
            if (mapLookup t sel.key).isSome then some (mapInsert t sel.key nv)
            else some t
        .ok { name := previewName baseDeploy.name version,
              selector := some (mapInsert m sel.key nv),
              templateLabels := tl }

/-! ## Routing registry objects (Istio `VirtualService`)

Only the fields the program reads or writes are modelled.  `TypeMeta`
and `ManagedFields` (cleared/restamped at `part_000` lines 279-283) carry
no claim-relevant content and are omitted. -/

/-- `part_000` line 64 / 151-152. -/
def appNamespace : GoStr := gs "default"

def istioNamespace : GoStr := gs "istio-system"

def previewHeader : GoStr := gs "X-PREVIEW"

/-- `fmt.Sprintf("%s.%s.svc.cluster.local", name, appNamespace)`
(`part_000` lines 162 and 202). -/
def svcClusterLocal (name : GoStr) : GoStr :=
  name ++ gs "." ++ appNamespace ++ gs ".svc.cluster.local"

/-- `networkingv1beta1.StringMatch_Prefix`: the only string-match policy
the program builds.  The field models `StringMatch_Prefix.Prefix`. -/
structure StringMatchPfx where
  pfx : GoStr
deriving DecidableEq

/-- `networkingv1beta1.HTTPMatchRequest`: only the `Headers` field is used. -/
structure HTTPMatchRequest where
  headers : List (GoStr × StringMatchPfx)
deriving DecidableEq

/-- `networkingv1beta1.HTTPRouteDestination`: destination host plus the
`Headers.Request.Add` map stamped by the gateway route. -/
structure HTTPRouteDestination where
  host : GoStr
  requestHeadersAdd : List (GoStr × GoStr)
deriving DecidableEq

/-- `networkingv1beta1.HTTPRoute`: `Name`, `Match`, `Route`. -/
structure HTTPRoute where
  name : GoStr
  matchRules : List HTTPMatchRequest
  route : List HTTPRouteDestination
deriving DecidableEq

/-- `istionetworking.VirtualService`: metadata name/namespace and the
spec fields `Hosts`, `Gateways`, `Http`. -/
structure VirtualService where
  name : GoStr
  ns : GoStr
  hosts : List GoStr
  gateways : List GoStr
  http : List HTTPRoute
deriving DecidableEq

/-- The comparator passed to `sort.Slice` at `part_000` lines 286-288:
`func(i, _ int) bool { return strings.HasPrefix(baseResource.Spec.Http[i].Name, previewPrefixName) }` —
it ignores its second argument and depends only on the element being
compared. -/
def httpLess (r : HTTPRoute) : Bool := previewPrefixName.isPrefixOf r.name

/-- One step of Go's `insertionSort` under the comparator above.  Go's
insertion sort moves the element at index `i` left while
`Less(j, j-1)` holds; since `Less(j, _)` here is `httpLess` of the moving
element itself, an element with the preview prefix bubbles all the way to
the front and any other element stays at the end of the processed
region. -/
def goSortStep (acc : List HTTPRoute) (r : HTTPRoute) : List HTTPRoute :=
  if httpLess r then r :: acc else acc ++ [r]

/-- `sort.Slice(baseResource.Spec.Http, func(i, _ int) bool {...})`
(`part_000` lines 286-288), modelled on its small-slice path.
`sort.Slice` is *unstable*; for slices of at most 12 elements it runs an
insertion sort (Go ≥ 1.19 directly; earlier Go adds a gap-6 Shell pass
that performs no swap below 7 elements, so for at most 6 elements every
Go version runs exactly the insertion sort).  Under this comparator the
insertion sort is the left fold of `goSortStep`, i.e. the prefixed
elements end up in *reverse* encounter order in front of the unprefixed
elements in encounter order.  Order-sensitive theorems below therefore
carry a length bound placing them in this exactly-modelled regime. -/
def goSortHttp (l : List HTTPRoute) : List HTTPRoute :=
  l.foldl goSortStep []

/-- `part_000` lines 215-227: scan every VirtualService in the cluster,
`continue` on any that declares gateways, and remember (without `break`)
the last one whose `Spec.Hosts` contains `originHost`. -/
def findBaseResource (vss : List VirtualService) (originHost : GoStr) :
    Option VirtualService :=
  vss.foldl
    (fun acc i =>
      if i.gateways == [] && i.hosts.contains originHost then some i else acc)
    none

/-- `part_000` lines 244-251: the single default route of a freshly
created sidecar VirtualService — named after the origin host, *no* match
predicate, destination the origin host. -/
def sidecarDefaultRoute (originHost : GoStr) : HTTPRoute :=
  { name := originHost,
    matchRules := [],
    route := [{ host := originHost, requestHeadersAdd := [] }] }

/-- `part_000` lines 233-253: the sidecar VirtualService created when no
mesh-internal object for the origin host exists. -/
def sidecarBaseVS (originSvcName : GoStr) : VirtualService :=
  { name := previewVirtualServiceName originSvcName,
    ns := istioNamespace,
    hosts := [svcClusterLocal originSvcName],
    gateways := [],
    http := [sidecarDefaultRoute (svcClusterLocal originSvcName)] }

/-- `part_000` lines 261-277: the appended preview route — named after the
preview host, matching header `X-PREVIEW` by the string-match policy
"has prefix `previewName("", version)`", destination the preview host. -/
def sidecarPreviewRoute (originSvcName version : GoStr) : HTTPRoute :=
  { name := previewName (svcClusterLocal originSvcName) version,
    matchRules := [{ headers := [(previewHeader, { pfx := previewName [] version })] }],
    route := [{ host := previewName (svcClusterLocal originSvcName) version,
                requestHeadersAdd := [] }] }

/-- `part_000` lines 295-302: the server-side apply (`types.ApplyPatchType`
with field manager `preview` and `Force: true`) of the fully re-marshalled
object, modelled as an upsert by object name: the tool owns every field it
submits and forces conflicts, so the submitted document replaces the
stored one (or is created when absent). -/
def applyPatchVS (vss : List VirtualService) (v : VirtualService) :
    List VirtualService :=
  if vss.any (fun i => i.name == v.name) then
    vss.map (fun i => if i.name == v.name then v else i)
  else vss ++ [v]

/-- `part_000` lines 200-304, `createSidecarVirtualService`.

`clientErr` is the error result of `newIstioClient()` (line 206).  The
guard at line 207 is transcribed as written in the source:
`if err != err { return err }` — the condition compares `err` with
itself, so it never fires; when the constructor did fail, `ics` is nil and
its first use (line 210) dereferences a nil pointer and panics.

Otherwise: find the last mesh-internal VirtualService whose hosts contain
the origin host (lines 215-227); create `sidecarBaseVS` when none exists
(lines 232-259, the created object becoming the base); append the preview
route (line 278); sort (lines 286-288); apply-patch (lines 290-302).
Returns the updated VirtualService list. -/
def createSidecarVirtualService (clientErr : Option GoStr)
    (vss : List VirtualService) (originSvcName version : GoStr) :
    GoResult (List VirtualService) :=
  if clientErr ≠ clientErr then .err (clientErr.getD []) else
  match clientErr with
  | some _ => .panic nilDerefMsg
  | none =>
    let originHost := svcClusterLocal originSvcName
    let step1 :=
      match findBaseResource vss originHost with
      | none => (vss ++ [sidecarBaseVS originSvcName], sidecarBaseVS originSvcName)
      | some b => (vss, b)
    let patched := { step1.2 with
      http := goSortHttp (step1.2.http ++ [sidecarPreviewRoute originSvcName version]) }
    .ok (applyPatchVS step1.1 patched)

/-- `part_000` lines 164-192: the gateway VirtualService — bound to the
user-supplied URL and gateway, one route named after the preview host
whose single destination is the preview host and which stamps request
header `X-PREVIEW: previewName(originSvcName, version)`. -/
def gatewayVS (url gateway originSvcName version : GoStr) : VirtualService :=
  { name := previewGatewayVirtualServiceName originSvcName version,
    ns := istioNamespace,
    hosts := [url],
    gateways := [gateway],
    http := [{ name := previewName (svcClusterLocal originSvcName) version,
               matchRules := [],
               route := [{ host := previewName (svcClusterLocal originSvcName) version,
                           requestHeadersAdd :=
                             [(previewHeader, previewName originSvcName version)] }] }] }

/-- `part_000` lines 155-198, `createGatewayVirtualService`.  The guard at
line 157 is transcribed as written: `if err != err { return err }` — never
fires; a failed `newIstioClient()` leaves `ics` nil and its first use
(line 160) panics.  Otherwise the gateway VirtualService is created
(modelled as an append; `Create` errors are out of the modelled state). -/
def createGatewayVirtualService (clientErr : Option GoStr)
    (vss : List VirtualService) (url gateway originSvcName version : GoStr) :
    GoResult (List VirtualService) :=
  if clientErr ≠ clientErr then .err (clientErr.getD []) else
  match clientErr with
  | some _ => .panic nilDerefMsg
  | none => .ok (vss ++ [gatewayVS url gateway originSvcName version])

/-! ## The `create` pipeline -/

/-- The remote state the pipeline reads and writes. -/
structure Cluster where
  services : List Service
  deployments : List Deployment
  virtualServices : List VirtualService
deriving DecidableEq

/-- `part_000` lines 44-62, `cmdCreate.RunE`: the four stages in order,
each returning its first error to the caller.  `k8sClientErr` and
`istioClientErr` stand for the outcomes of the `newK8sClient()` /
`newIstioClient()` constructions made inside the stages.  The pair result
carries the cluster state alongside the Go return, so that "what was
created before the failure" is visible. -/
def runE (k8sClientErr istioClientErr : Option GoStr) (cl : Cluster)
    (originService version gateway url : GoStr) : Cluster × GoResult Unit :=
  match createService k8sClientErr cl.services originService version with
  | .err e => (cl, .err e)
  | .panic m => (cl, .panic m)
  | .ok (sel, newSvc) =>
    let cl1 := { cl with services := cl.services ++ [newSvc] }
    match createDeploy k8sClientErr cl1.deployments sel version with
    | .err e => (cl1, .err e)
    | .panic m => (cl1, .panic m)
    | .ok newDep =>
      let cl2 := { cl1 with deployments := cl1.deployments ++ [newDep] }
      match createSidecarVirtualService istioClientErr cl2.virtualServices
          originService version with
      | .err e => (cl2, .err e)
      | .panic m => (cl2, .panic m)
      | .ok vss =>
        let cl3 := { cl2 with virtualServices := vss }
        match createGatewayVirtualService istioClientErr cl3.virtualServices
            url gateway originService version with
        | .err e => (cl3, .err e)
        | .panic m => (cl3, .panic m)
        | .ok vss2 => ({ cl3 with virtualServices := vss2 }, .ok ())

/-! ## CLI flag registration (`cmdCreate.New`, `part_000` lines 26-42) -/

/-- One registered cobra flag: long name, shorthand, default value. -/
structure FlagSpec where
  name : GoStr
  shorthand : Char
  defVal : GoStr
deriving DecidableEq

/-- The flag set of a command: registered flags plus the names
successfully marked required. -/
structure CommandFlags where
  flags : List FlagSpec
  required : List GoStr
deriving DecidableEq

/-- `cmd.Flags().StringVarP(&field, name, shorthand, defVal, usage)`. -/
def addFlag (c : CommandFlags) (name : GoStr) (sh : Char) (defVal : GoStr) :
    CommandFlags :=
  { c with flags := c.flags ++ [{ name := name, shorthand := sh, defVal := defVal }] }

/-- `cmd.MarkFlagRequired(name)`: cobra looks the flag up by its long
name; on an unknown name it returns an error (which the source discards)
and marks nothing. -/
def markFlagRequired (c : CommandFlags) (name : GoStr) : CommandFlags :=
  if c.flags.any (fun f => f.name == name) then
    { c with required := c.required ++ [name] }
  else c

/-- `part_000` lines 33-39, transcribed call by call:
`StringVarP(version, "version", "v", "", ...)`; `MarkFlagRequired("version")`;
`StringVarP(service, "service", "s", "", ...)`; `MarkFlagRequired("service")`;
`StringVarP(gateway, "gateway", "g", "my-gateway", ...)`;
`StringVarP(url, "url", "u", "", ...)`; `MarkFlagRequired("previewURL")`. -/
def cmdCreateFlags : CommandFlags :=
  let c0 : CommandFlags := { flags := [], required := [] }
  let c1 := addFlag c0 (gs "version") 'v' []
  let c2 := markFlagRequired c1 (gs "version")
  let c3 := addFlag c2 (gs "service") 's' []
  let c4 := markFlagRequired c3 (gs "service")
  let c5 := addFlag c4 (gs "gateway") 'g' (gs "my-gateway")
  let c6 := addFlag c5 (gs "url") 'u' []
  markFlagRequired c6 (gs "previewURL")

/-- Cobra's pre-run required-flag validation: an invocation providing the
set `provided` of long flag names is accepted iff every marked-required
flag was provided. -/
def validateRequiredFlags (c : CommandFlags) (provided : List GoStr) : Bool :=
  c.required.all (fun r => provided.contains r)

/-! ## Helper accessors used by concrete scenario statements -/

/-- The `ok` payload of a `GoResult`, with a fallback. -/
def GoResult.okD {α : Type} : GoResult α → α → α
  | .ok a, _ => a
  | _, d => d

/-- The route-name sequence of the VirtualService called `vsName` in a
cluster's VirtualService list (first match; `[]` when absent). -/
def httpNamesOf (vss : List VirtualService) (vsName : GoStr) : List GoStr :=
  match vss.find? (fun v => v.name == vsName) with
  | some v => v.http.map (fun r => r.name)
  | none => []

/-! ## Lemmas about the sort -/

/-- Left-fold characterisation of Go's insertion sort under the
`httpLess` comparator: an accumulator of the form `A ++ B` (prefixed part
`A`, unprefixed part `B`) stays in that form, prefixed elements being
consed onto `A` and unprefixed ones appended after `B`. -/
lemma goSort_foldl (l : List HTTPRoute) :
    ∀ A B : List HTTPRoute,
      l.foldl goSortStep (A ++ B)
        = ((l.filter httpLess).reverse ++ A) ++ (B ++ l.filter (fun r => !httpLess r)) := by
  induction l with
  | nil => intro A B; simp
  | cons r l ih =>
    intro A B
    by_cases h : httpLess r
    · have h1 : goSortStep (A ++ B) r = (r :: A) ++ B := by
        simp [goSortStep, h]
      rw [List.foldl_cons, h1, ih (r :: A) B]
      simp [h, List.filter_cons]
    · have h1 : goSortStep (A ++ B) r = A ++ (B ++ [r]) := by
        simp [goSortStep, h]
      rw [List.foldl_cons, h1, ih A (B ++ [r])]
      simp [h, List.filter_cons]

/-- Closed form of the sort at `part_000` lines 286-288: the routes whose
names carry the preview prefix, in *reverse* encounter order, followed by
the remaining routes in encounter order. -/
lemma goSortHttp_eq (l : List HTTPRoute) :
    goSortHttp l = (l.filter httpLess).reverse ++ l.filter (fun r => !httpLess r) := by
  have := goSort_foldl l [] []
  simpa [goSortHttp] using this

/-- The sort is a permutation (it only swaps elements). -/
lemma goSortHttp_perm (l : List HTTPRoute) : (goSortHttp l).Perm l := by
  rw [goSortHttp_eq]
  exact (((l.filter httpLess).reverse_perm).append_right _).trans
    (List.filter_append_perm _ l)

/-! ## Lemmas about the naming codec -/

/-- `previewName` spelt out as a cons cell. -/
lemma previewName_eq (o v : GoStr) :
    previewName o v = 'p' :: 'r' :: (v ++ '-' :: o) := by
  simp only [previewName]
  rw [show previewPrefixName = ['p', 'r'] from rfl,
    show gs "-" = ['-'] from rfl, List.append_assoc, List.append_assoc]
  rfl

/-- Anything of the shape `"pr" ++ xs` passes the `HasPrefix` test. -/
lemma isPrefixOf_pr_cons (xs : GoStr) :
    previewPrefixName.isPrefixOf ('p' :: 'r' :: xs) = true := by
  rw [show previewPrefixName = ['p', 'r'] from rfl]
  simp [List.isPrefixOf]

/-- Every preview name carries the reserved prefix. -/
lemma pr_isPrefix_previewName (o v : GoStr) :
    previewPrefixName.isPrefixOf (previewName o v) = true := by
  rw [previewName_eq]; exact isPrefixOf_pr_cons _

/-- A name that does not carry the reserved prefix still does not carry
it after `".…"` is appended (the first appended character is `'.'`,
which is neither `'p'` nor a second-position `'r'`). -/
lemma pr_not_prefix_append (o rest : GoStr)
    (h : previewPrefixName.isPrefixOf o = false) :
    previewPrefixName.isPrefixOf (o ++ '.' :: rest) = false := by
  rw [show previewPrefixName = ['p', 'r'] from rfl] at h ⊢
  match o with
  | [] => simp [List.isPrefixOf, show ('p' == '.') = false from rfl]
  | [a] => simp [List.isPrefixOf, show ('r' == '.') = false from rfl]
  | a :: b :: o' =>
    simp only [List.cons_append, List.isPrefixOf] at h ⊢
    simpa using (by simpa using h)

/-- `takeWhile (· != '-')` of `v ++ '-' :: n` recovers `v` when `v` is
free of the separator. -/
lemma takeWhile_sep (v n : GoStr) (h : '-' ∉ v) :
    (v ++ '-' :: n).takeWhile (fun c => c != '-') = v := by
  induction v with
  | nil => simp [List.takeWhile_cons]
  | cons c v ih =>
    have hc' : c ≠ '-' :=
      fun hcc => h (by rw [hcc]; exact List.mem_cons_self '-' v)
    have hc : (c != '-') = true := by simpa using hc'
    simp [List.takeWhile_cons, hc,
      ih (fun hm => h (List.mem_cons_of_mem _ hm))]

/-- C3: the decoder inverts the encoder on separator-free tokens.
`getVersionFromPreview (previewName n v) = v` whenever neither the origin
name nor the version tag contains the reserved prefix `"pr"` or the
separator `'-'` (only the separator-freeness of `v` is actually needed:
the split at the first `'-'` then stops exactly at the separator that
`previewName` inserted after the version). -/
theorem c3_decode_encode (n v : GoStr)
    (_hn1 : ¬ previewPrefixName <:+: n) (_hn2 : '-' ∉ n)
    (_hv1 : ¬ previewPrefixName <:+: v) (hv2 : '-' ∉ v) :
    getVersionFromPreview (previewName n v) = v := by
  unfold getVersionFromPreview
  rw [previewName_eq]
  rw [isPrefixOf_pr_cons]
  simp only [if_true]
  rw [show previewPrefixName.length = 2 from rfl]
  exact takeWhile_sep v n hv2

/-- Witness for C3 at `n = "checkout"`, `v = "42"`. -/
theorem c3_decode_encode_witness :
    (¬ previewPrefixName <:+: gs "checkout") ∧ ('-' ∉ gs "checkout")
    ∧ (¬ previewPrefixName <:+: gs "42") ∧ ('-' ∉ gs "42")
    ∧ getVersionFromPreview (previewName (gs "checkout") (gs "42")) = gs "42" :=
  ⟨by decide, by decide, by decide, by decide,
    c3_decode_encode (gs "checkout") (gs "42")
      (by decide) (by decide) (by decide) (by decide)⟩

/-- A list is a `HasPrefix`-prefix of itself followed by anything. -/
lemma isPrefixOf_self_append (l t : GoStr) : l.isPrefixOf (l ++ t) = true := by
  induction l with
  | nil => simp [List.isPrefixOf]
  | cons c l ih => simp [List.isPrefixOf, ih]

/-- C8: the gateway route (`part_000` lines 176-191) stamps request
header `X-PREVIEW` with `previewName(originSvcName, version)`; the
sidecar preview route (`part_000` lines 261-271) matches header
`X-PREVIEW` by string-match policy "has prefix `previewName("", version)`".
The stamped value always has the matched string as a prefix, so every
request forwarded through the gateway route for a version satisfies that
version's sidecar header match. -/
theorem c8_stamped_header_satisfies_match (o v url gw : GoStr) :
    ((gatewayVS url gw o v).http.map
        (fun r => r.route.map (fun d => d.requestHeadersAdd)))
      = [[[(previewHeader, previewName o v)]]]
    ∧ ((sidecarPreviewRoute o v).matchRules.map (fun m => m.headers))
      = [[(previewHeader, { pfx := previewName [] v })]]
    ∧ (previewName [] v).isPrefixOf (previewName o v) = true := by
  refine ⟨rfl, rfl, ?_⟩
  have h : previewName o v = previewName [] v ++ o := by
    simp [previewName, List.append_assoc]
  rw [h]
  exact isPrefixOf_self_append _ _

/-- C9 (code behaviour at the failing input): after `cmdCreate.New`
registers its flags, only `version` and `service` are marked required —
line 39 calls `MarkFlagRequired("previewURL")`, but the flag is
registered under the long name `url`, so the call fails (its error is
discarded) and marks nothing.  An invocation providing only `--version`
and `--service` therefore passes required-flag validation, i.e. `--url`
is not required; `--gateway` is registered with default `my-gateway`. -/
theorem c9_url_not_required :
    cmdCreateFlags.required = [gs "version", gs "service"]
    ∧ validateRequiredFlags cmdCreateFlags [gs "version", gs "service"] = true
    ∧ (cmdCreateFlags.flags.map (fun f => f.name)).contains (gs "url") = true
    ∧ (cmdCreateFlags.flags.find? (fun f => f.name == gs "gateway")).map
        (fun f => f.defVal) = some (gs "my-gateway") := by
  refine ⟨?_, ?_, ?_, ?_⟩ <;> decide

/-- C2 (code behaviour at the failing input): when `newIstioClient()`
fails, neither `createSidecarVirtualService` (`part_000` line 207) nor
`createGatewayVirtualService` (line 157) returns the error: the guard is
written `if err != err`, which never holds, so execution continues with a
nil client and panics on its first use instead of returning the error. -/
theorem c2_istio_client_error_not_returned (e : GoStr)
    (vss : List VirtualService) (o v url gw : GoStr) :
    createSidecarVirtualService (some e) vss o v = .panic nilDerefMsg
    ∧ createGatewayVirtualService (some e) vss url gw o v = .panic nilDerefMsg
    ∧ createSidecarVirtualService (some e) vss o v ≠ .err e
    ∧ createGatewayVirtualService (some e) vss url gw o v ≠ .err e := by
  have hs : createSidecarVirtualService (some e) vss o v = .panic nilDerefMsg := by
    unfold createSidecarVirtualService
    exact if_neg (fun h => h rfl)
  have hg : createGatewayVirtualService (some e) vss url gw o v
      = .panic nilDerefMsg := by
    unfold createGatewayVirtualService
    exact if_neg (fun h => h rfl)
  refine ⟨hs, hg, ?_, ?_⟩
  · rw [hs]; exact fun h => GoResult.noConfusion h
  · rw [hg]; exact fun h => GoResult.noConfusion h

/-- C5: an origin service whose declared selector map is empty (which is
also what the zero-value Service of an absent origin yields) makes
`createService` fail with the selector-not-found error before anything is
created, and `RunE` returns that error with the cluster untouched: no
preview Service, Deployment or route exists afterwards. -/
theorem c5_empty_selector_rejected (cl : Cluster) (o v gw url : GoStr)
    (istioErr : Option GoStr)
    (hsel : (findBaseSvc cl.services o).selector = []) :
    runE none istioErr cl o v gw url
      = (cl, .err (gs "not found selector from service " ++ o)) := by
  have h1 : createService none cl.services o v
      = .err (gs "not found selector from service " ++ o) := by
    simp [createService, hsel, lastSelectorEntry]
  unfold runE
  rw [h1]

/-- Witness for C5: a cluster whose only service `checkout` declares an
empty selector map. -/
theorem c5_empty_selector_rejected_witness :
    (findBaseSvc [{ name := gs "checkout", labels := some [], selector := [] }]
        (gs "checkout")).selector = []
    ∧ runE none none
        { services := [{ name := gs "checkout", labels := some [], selector := [] }],
          deployments := [], virtualServices := [] }
        (gs "checkout") (gs "42") (gs "my-gateway") (gs "pr42.example.com")
      = ({ services := [{ name := gs "checkout", labels := some [], selector := [] }],
           deployments := [], virtualServices := [] },
         .err (gs "not found selector from service " ++ gs "checkout")) :=
  ⟨by decide, c5_empty_selector_rejected _ _ _ _ _ _ (by decide)⟩

/-- C10: after locating the origin service and a selector pair,
`createService` (`part_000` line 99) writes the preview-tagged value into
the deep copy's `Labels` map with no nil check; when the origin service
declares a selector but carries no labels (`Labels` nil), this is a write
to a nil map — a panic, not a returned error — so `createService`
succeeds only for origin services with a non-nil label map. -/
theorem c10_nil_labels_write_panics (svcs : List Service) (name v : GoStr)
    (sel : deploySelector)
    (hsel : lastSelectorEntry (findBaseSvc svcs name).selector = some sel)
    (hlab : (findBaseSvc svcs name).labels = none) :
    createService none svcs name v = .panic nilMapWriteMsg
    ∧ ∀ msg, createService none svcs name v ≠ .err msg := by
  have h : createService none svcs name v = .panic nilMapWriteMsg := by
    simp [createService, hsel, hlab]
  exact ⟨h, fun msg he => GoResult.noConfusion (h ▸ he)⟩

/-- Witness for C10: origin service `checkout` with selector
`{"app": "checkout"}` and a nil label map. -/
theorem c10_nil_labels_write_panics_witness :
    (lastSelectorEntry (findBaseSvc
        [{ name := gs "checkout", labels := none,
           selector := [(gs "app", gs "checkout")] }] (gs "checkout")).selector
      = some (deploySelector.mk (gs "app") (gs "checkout")))
    ∧ (findBaseSvc
        [{ name := gs "checkout", labels := none,
           selector := [(gs "app", gs "checkout")] }] (gs "checkout")).labels = none
    ∧ createService none
        [{ name := gs "checkout", labels := none,
           selector := [(gs "app", gs "checkout")] }] (gs "checkout") (gs "42")
      = .panic nilMapWriteMsg :=
  ⟨by decide, by decide,
    (c10_nil_labels_write_panics _ _ _
      (deploySelector.mk (gs "app") (gs "checkout"))
      (by decide) (by decide)).1⟩

/-- When no deployment's match-labels carry the selector pair (and every
listed deployment has a non-nil selector, as API-served objects do), the
search of `part_000` lines 124-134 falls through to the zero-value
Deployment. -/
lemma findBaseDeploy_no_match (deps : List Deployment) (sel : deploySelector)
    (hclean : ∀ d ∈ deps, d.selector ≠ none)
    (hnomatch : ∀ d ∈ deps, ∀ m, d.selector = some m →
      mapLookup m sel.key ≠ some sel.value) :
    findBaseDeploy deps sel = .ok zeroDeployment := by
  induction deps with
  | nil => rfl
  | cons d ds ih =>
    have ih' := ih (fun x hx => hclean x (List.mem_cons_of_mem d hx))
      (fun x hx => hnomatch x (List.mem_cons_of_mem d hx))
    cases hd : d.selector with
    | none => exact absurd hd (hclean d (List.mem_cons_self d ds))
    | some m =>
      cases hl : mapLookup m sel.key with
      | none => simp [findBaseDeploy, hd, hl, ih']
      | some val =>
        have hne : (val == sel.value) = false := by
          simp only [beq_eq_false_iff_ne, ne_eq]
          exact fun hv =>
            hnomatch d (List.mem_cons_self d ds) m hd (hv ▸ hl)
        simp [findBaseDeploy, hd, hl, hne, ih']

/-- C4 (amended): when no workload deployment's match-labels contain the
selector pair, `createDeploy` *does* fail — the zero-value template's
`Spec.Selector` is a nil pointer, so the match-labels rewrite at
`part_000` line 139 panics with a nil dereference and nothing is
submitted for creation. -/
theorem c4_no_match_panics (deps : List Deployment) (sel : deploySelector)
    (v : GoStr)
    (hclean : ∀ d ∈ deps, d.selector ≠ none)
    (hnomatch : ∀ d ∈ deps, ∀ m, d.selector = some m →
      mapLookup m sel.key ≠ some sel.value) :
    createDeploy none deps sel v = .panic nilDerefMsg := by
  unfold createDeploy
  rw [findBaseDeploy_no_match deps sel hclean hnomatch]
  rfl

/-- Witness for C4 (amended): one deployment whose selector carries the
key with a different value. -/
theorem c4_no_match_panics_witness :
    (∀ d ∈ [{ name := gs "web",
              selector := some [(gs "app", gs "other")],
              templateLabels := some [] : Deployment }], d.selector ≠ none)
    ∧ (∀ d ∈ [{ name := gs "web",
                selector := some [(gs "app", gs "other")],
                templateLabels := some [] : Deployment }], ∀ m,
          d.selector = some m →
            mapLookup m (gs "app") ≠ some (gs "checkout"))
    ∧ createDeploy none
        [{ name := gs "web", selector := some [(gs "app", gs "other")],
           templateLabels := some [] }]
        { key := gs "app", value := gs "checkout" } (gs "42")
      = .panic nilDerefMsg :=
  ⟨by decide, by decide,
    c4_no_match_panics _ _ _ (by decide) (by decide)⟩

/-- C4 counterexample: with no deployments at all (so certainly none
matching selector `("app", "checkout")`), `createDeploy` does not proceed
to submit a clone — it panics on the nil `Spec.Selector` of the
zero-value template. -/
theorem c4_counterexample :
    createDeploy none [] { key := gs "app", value := gs "checkout" } (gs "42")
      = .panic nilDerefMsg := by decide

/-! ## Lemmas about sidecar route composition -/

/-- The fully-qualified origin host spelt with an explicit leading dot
after the origin name. -/
lemma svcClusterLocal_eq (o : GoStr) :
    svcClusterLocal o = o ++ '.' :: gs "default.svc.cluster.local" := by
  unfold svcClusterLocal
  rw [List.append_assoc, List.append_assoc]
  congr 1

/-- The preview route's name always carries the reserved prefix. -/
lemma httpLess_previewRoute (o v : GoStr) :
    httpLess (sidecarPreviewRoute o v) = true :=
  pr_isPrefix_previewName _ _

/-- The default route's name (the origin host) carries the reserved
prefix only if the origin name itself does. -/
lemma httpLess_defaultRoute (o : GoStr)
    (h : previewPrefixName.isPrefixOf o = false) :
    httpLess (sidecarDefaultRoute (svcClusterLocal o)) = false := by
  simp only [httpLess, sidecarDefaultRoute]
  rw [svcClusterLocal_eq]
  exact pr_not_prefix_append o _ h

/-- `createSidecarVirtualService` when a mesh-internal object for the
origin host was found: it is extended with the preview route, sorted and
apply-patched. -/
lemma sidecar_found (vss : List VirtualService) (o v : GoStr)
    (b : VirtualService)
    (hfound : findBaseResource vss (svcClusterLocal o) = some b) :
    createSidecarVirtualService none vss o v
      = .ok (applyPatchVS vss
          { b with http := goSortHttp (b.http ++ [sidecarPreviewRoute o v]) }) := by
  unfold createSidecarVirtualService
  rw [if_neg (fun hc => hc rfl)]
  simp only [hfound]

/-- `createSidecarVirtualService` when no mesh-internal object for the
origin host exists: `sidecarBaseVS` is created first and then extended
and apply-patched. -/
lemma sidecar_notfound (vss : List VirtualService) (o v : GoStr)
    (hnone : findBaseResource vss (svcClusterLocal o) = none) :
    createSidecarVirtualService none vss o v
      = .ok (applyPatchVS (vss ++ [sidecarBaseVS o])
          { sidecarBaseVS o with
            http := goSortHttp ((sidecarBaseVS o).http ++ [sidecarPreviewRoute o v]) }) := by
  unfold createSidecarVirtualService
  rw [if_neg (fun hc => hc rfl)]
  simp only [hnone]

/-- A last-match fold returns `none` exactly when it starts from `none`
and no element passes the test. -/
lemma foldl_lastmatch_none (cond : VirtualService → Bool)
    (l : List VirtualService) :
    ∀ acc : Option VirtualService,
      l.foldl (fun acc i => if cond i then some i else acc) acc = none ↔
        (acc = none ∧ ∀ i ∈ l, cond i = false) := by
  induction l with
  | nil => intro acc; simp
  | cons x l ih =>
    intro acc
    rw [List.foldl_cons, ih]
    by_cases h : cond x
    · simp [h]
    · simp [h]

/-- The search of `part_000` lines 215-227 comes up empty exactly when no
VirtualService both declares no gateways and lists the origin host. -/
lemma findBaseResource_eq_none (vss : List VirtualService) (host : GoStr) :
    findBaseResource vss host = none ↔
      ∀ i ∈ vss, i.gateways = [] → host ∉ i.hosts := by
  unfold findBaseResource
  rw [foldl_lastmatch_none]
  simp only [true_and]
  constructor
  · intro h i hi hg hh
    have h2 := h i hi
    rw [hg] at h2
    simp at h2
    exact h2 hh
  · intro h i hi
    by_cases hg : i.gateways = []
    · have h2 := h i hi hg
      simp [hg, h2]
    · simp [hg]

/-- Composing a preview on a fresh origin (no mesh-internal object yet):
the resulting cluster holds exactly the patched sidecar object, whose
routes are the preview route followed by the default route. -/
lemma sidecar_fresh (o v : GoStr)
    (h : previewPrefixName.isPrefixOf o = false) :
    createSidecarVirtualService none [] o v
      = .ok [{ sidecarBaseVS o with
               http := [sidecarPreviewRoute o v,
                        sidecarDefaultRoute (svcClusterLocal o)] }] := by
  rw [sidecar_notfound [] o v rfl]
  have hsort : goSortHttp ((sidecarBaseVS o).http ++ [sidecarPreviewRoute o v])
      = [sidecarPreviewRoute o v, sidecarDefaultRoute (svcClusterLocal o)] := by
    simp [sidecarBaseVS, goSortHttp, goSortStep,
      httpLess_defaultRoute o h, httpLess_previewRoute]
  rw [hsort]
  simp [applyPatchVS]

/-- The route-name partition property of the model's sort: prefixed
route names first, unprefixed after.  The length bound keeps the
statement inside the regime where `sort.Slice` runs exactly the modelled
insertion sort on every Go release. -/
def c1Partition (l : List HTTPRoute) : Prop :=
  ∃ a b, goSortHttp l = a ++ b
    ∧ (∀ r ∈ a, httpLess r = true) ∧ (∀ r ∈ b, httpLess r = false)

def c1PartitionAll : Prop :=
  ∀ l : List HTTPRoute, l.length ≤ 6 → c1Partition l

lemma c1Partition_all : c1PartitionAll := by
  intro l _
  refine ⟨(l.filter httpLess).reverse, l.filter (fun r => !httpLess r),
    goSortHttp_eq l, ?_, ?_⟩
  · exact fun r hr => List.of_mem_filter (List.mem_reverse.mp hr)
  · exact fun r hr => by simpa using List.of_mem_filter hr

/-- C1 counterexample: composing versions `1` then `2` for origin
`checkout` leaves the shared object's routes as `[pr2-…, pr1-…, default]`
— v2's preview route precedes v1's, so the relative creation order within
the preview group is *not* preserved, contradicting the claimed stable
partition. -/
theorem c1_counterexample :
    httpNamesOf ((createSidecarVirtualService none
        ((createSidecarVirtualService none [] (gs "checkout") (gs "1")).okD [])
        (gs "checkout") (gs "2")).okD [])
      (previewVirtualServiceName (gs "checkout"))
      = [previewName (svcClusterLocal (gs "checkout")) (gs "2"),
         previewName (svcClusterLocal (gs "checkout")) (gs "1"),
         svcClusterLocal (gs "checkout")]
    ∧ httpNamesOf ((createSidecarVirtualService none
        ((createSidecarVirtualService none [] (gs "checkout") (gs "1")).okD [])
        (gs "checkout") (gs "2")).okD [])
      (previewVirtualServiceName (gs "checkout"))
      ≠ [previewName (svcClusterLocal (gs "checkout")) (gs "1"),
         previewName (svcClusterLocal (gs "checkout")) (gs "2"),
         svcClusterLocal (gs "checkout")] := by
  refine ⟨by decide, by decide⟩

/-- C1 (amended): after appending, the route sequence is *partitioned* —
every route whose name carries the reserved preview prefix precedes every
route whose name does not, so the default catch-all route is last (in the
at-most-6-route regime where `sort.Slice` is exactly the modelled
insertion sort) — but the partition is not stable: composing `v1` then
`v2` for the same origin yields both preview routes before the single
default route with `v2`'s route *before* `v1`'s (creation order
reversed), because the comparator ignores its second argument and
`sort.Slice` is unstable. -/
theorem c1_preview_first_but_reversed (o v1 v2 : GoStr)
    (h : previewPrefixName.isPrefixOf o = false) :
    httpNamesOf ((createSidecarVirtualService none
        ((createSidecarVirtualService none [] o v1).okD []) o v2).okD [])
      (previewVirtualServiceName o)
      = [previewName (svcClusterLocal o) v2,
         previewName (svcClusterLocal o) v1, svcClusterLocal o]
    ∧ c1PartitionAll := by
  refine ⟨?_, c1Partition_all⟩
  rw [sidecar_fresh o v1 h]
  simp only [GoResult.okD]
  have hf : findBaseResource
      [{ sidecarBaseVS o with
         http := [sidecarPreviewRoute o v1,
                  sidecarDefaultRoute (svcClusterLocal o)] }]
      (svcClusterLocal o)
      = some { sidecarBaseVS o with
               http := [sidecarPreviewRoute o v1,
                        sidecarDefaultRoute (svcClusterLocal o)] } := by
    simp [findBaseResource, sidecarBaseVS]
  rw [sidecar_found _ o v2 _ hf]
  simp only [GoResult.okD]
  have hsort : goSortHttp
      [sidecarPreviewRoute o v1, sidecarDefaultRoute (svcClusterLocal o),
       sidecarPreviewRoute o v2]
      = [sidecarPreviewRoute o v2, sidecarPreviewRoute o v1,
         sidecarDefaultRoute (svcClusterLocal o)] := by
    simp [goSortHttp, goSortStep, httpLess_defaultRoute o h,
      httpLess_previewRoute]
  simp only [applyPatchVS, httpNamesOf, hsort, sidecarBaseVS,
    List.cons_append, List.nil_append, List.any_cons, List.any_nil,
    beq_self_eq_true, Bool.or_false, if_true, List.map_cons, List.map_nil,
    List.find?]
  simp [hsort, sidecarPreviewRoute, sidecarDefaultRoute]

/-- Witness for the amended C1 at origin `checkout`, versions `1`, `2`. -/
theorem c1_preview_first_but_reversed_witness :
    (previewPrefixName.isPrefixOf (gs "checkout") = false)
    ∧ (httpNamesOf ((createSidecarVirtualService none
          ((createSidecarVirtualService none [] (gs "checkout") (gs "1")).okD [])
          (gs "checkout") (gs "2")).okD [])
        (previewVirtualServiceName (gs "checkout"))
        = [previewName (svcClusterLocal (gs "checkout")) (gs "2"),
           previewName (svcClusterLocal (gs "checkout")) (gs "1"),
           svcClusterLocal (gs "checkout")]
      ∧ c1PartitionAll) :=
  ⟨by decide,
    c1_preview_first_but_reversed (gs "checkout") (gs "1") (gs "2") (by decide)⟩

/-- C6, creation case: when no mesh-internal routing object whose host
list contains the origin's fully-qualified host exists, composition
creates `sidecarBaseVS o` — named deterministically from the origin
identifier, holding exactly one route with no match predicate whose
destination is the origin host — and then extends and patches it. -/
def c6CreateCase (vss : List VirtualService) (o v : GoStr) : Prop :=
  (∀ i ∈ vss, i.gateways = [] → svcClusterLocal o ∉ i.hosts) →
    createSidecarVirtualService none vss o v
      = .ok (applyPatchVS (vss ++ [sidecarBaseVS o])
          { sidecarBaseVS o with
            http := goSortHttp ((sidecarBaseVS o).http ++ [sidecarPreviewRoute o v]) })
    ∧ (sidecarBaseVS o).name = previewVirtualServiceName o
    ∧ (sidecarBaseVS o).http = [sidecarDefaultRoute (svcClusterLocal o)]
    ∧ (sidecarDefaultRoute (svcClusterLocal o)).matchRules = []
    ∧ (sidecarDefaultRoute (svcClusterLocal o)).route
        = [{ host := svcClusterLocal o, requestHeadersAdd := [] }]

/-- C6, extension case: when such an object exists, composition extends
it — the patched object keeps the found object's name and its route list
is a permutation of the existing routes with the preview route appended
(nothing replaced). -/
def c6ExtendCase (vss : List VirtualService) (o v : GoStr) : Prop :=
  ∀ b, findBaseResource vss (svcClusterLocal o) = some b →
    createSidecarVirtualService none vss o v
      = .ok (applyPatchVS vss
          { b with http := goSortHttp (b.http ++ [sidecarPreviewRoute o v]) })
    ∧ (goSortHttp (b.http ++ [sidecarPreviewRoute o v])).Perm
        (b.http ++ [sidecarPreviewRoute o v])

/-- C6: route composition creates the shared routing object lazily (with
only the default route) on first use and extends — never replaces — it
afterwards. -/
theorem c6_lazy_create_then_extend (vss : List VirtualService) (o v : GoStr) :
    c6CreateCase vss o v ∧ c6ExtendCase vss o v := by
  constructor
  · intro hnone
    refine ⟨?_, rfl, rfl, rfl, rfl⟩
    exact sidecar_notfound vss o v ((findBaseResource_eq_none vss _).mpr hnone)
  · intro b hfound
    exact ⟨sidecar_found vss o v b hfound, goSortHttp_perm _⟩

/-- Witness for C6: the creation case on an empty cluster and the
extension case on the cluster holding the freshly created object. -/
theorem c6_lazy_create_then_extend_witness :
    ((∀ i ∈ ([] : List VirtualService),
        i.gateways = [] → svcClusterLocal (gs "checkout") ∉ i.hosts)
      ∧ (createSidecarVirtualService none [] (gs "checkout") (gs "42")
          = .ok (applyPatchVS ([] ++ [sidecarBaseVS (gs "checkout")])
              { sidecarBaseVS (gs "checkout") with
                http := goSortHttp ((sidecarBaseVS (gs "checkout")).http
                  ++ [sidecarPreviewRoute (gs "checkout") (gs "42")]) })
        ∧ (sidecarBaseVS (gs "checkout")).name
            = previewVirtualServiceName (gs "checkout")
        ∧ (sidecarBaseVS (gs "checkout")).http
            = [sidecarDefaultRoute (svcClusterLocal (gs "checkout"))]
        ∧ (sidecarDefaultRoute (svcClusterLocal (gs "checkout"))).matchRules = []
        ∧ (sidecarDefaultRoute (svcClusterLocal (gs "checkout"))).route
            = [{ host := svcClusterLocal (gs "checkout"), requestHeadersAdd := [] }]))
    ∧ (findBaseResource [sidecarBaseVS (gs "checkout")]
          (svcClusterLocal (gs "checkout")) = some (sidecarBaseVS (gs "checkout"))
      ∧ (createSidecarVirtualService none [sidecarBaseVS (gs "checkout")]
            (gs "checkout") (gs "42")
          = .ok (applyPatchVS [sidecarBaseVS (gs "checkout")]
              { sidecarBaseVS (gs "checkout") with
                http := goSortHttp ((sidecarBaseVS (gs "checkout")).http
                  ++ [sidecarPreviewRoute (gs "checkout") (gs "42")]) })
        ∧ (goSortHttp ((sidecarBaseVS (gs "checkout")).http
              ++ [sidecarPreviewRoute (gs "checkout") (gs "42")])).Perm
            ((sidecarBaseVS (gs "checkout")).http
              ++ [sidecarPreviewRoute (gs "checkout") (gs "42")]))) :=
  ⟨⟨fun i hi => absurd hi (List.not_mem_nil i),
    (c6_lazy_create_then_extend [] (gs "checkout") (gs "42")).1
      (fun i hi => absurd hi (List.not_mem_nil i))⟩,
   by decide,
   (c6_lazy_create_then_extend [sidecarBaseVS (gs "checkout")]
      (gs "checkout") (gs "42")).2 (sidecarBaseVS (gs "checkout")) (by decide)⟩

/-- The sort keeps the unprefixed routes exactly, in order: filtering the
sorted list for routes without the preview prefix gives the same as
filtering the input. -/
lemma goSortHttp_filter_not (l : List HTTPRoute) :
    (goSortHttp l).filter (fun r => !httpLess r)
      = l.filter (fun r => !httpLess r) := by
  rw [goSortHttp_eq, List.filter_append]
  have h1 : ((l.filter httpLess).reverse).filter (fun r => !httpLess r) = [] := by
    rw [List.filter_eq_nil_iff]
    intro r hr
    have := List.of_mem_filter (List.mem_reverse.mp hr)
    simp [this]
  rw [h1, List.nil_append]
  simp [List.filter_filter]

/-- The four-stage scenario used to refute C7: versions `1`, `2`, `3`
composed in that order for origin `checkout`, then version `3` re-run. -/
def c7s1 : List VirtualService :=
  (createSidecarVirtualService none [] (gs "checkout") (gs "1")).okD []

def c7s2 : List VirtualService :=
  (createSidecarVirtualService none c7s1 (gs "checkout") (gs "2")).okD []

def c7s3 : List VirtualService :=
  (createSidecarVirtualService none c7s2 (gs "checkout") (gs "3")).okD []

def c7s4 : List VirtualService :=
  (createSidecarVirtualService none c7s3 (gs "checkout") (gs "3")).okD []

/-- C7 counterexample: before the re-run of version `3`, the shared
object's routes are `[pr3-…, pr1-…, pr2-…, default]`; re-running `3`
yields `[pr3-…, pr2-…, pr1-…, pr3-…, default]` — the two routes unrelated
to version `3` (those of versions `1` and `2`) have *swapped* relative
order, contradicting the claim that unrelated routes keep their relative
order (the duplicate `pr3-…` route is the documented gap). -/
theorem c7_counterexample :
    httpNamesOf c7s3 (previewVirtualServiceName (gs "checkout"))
      = [previewName (svcClusterLocal (gs "checkout")) (gs "3"),
         previewName (svcClusterLocal (gs "checkout")) (gs "1"),
         previewName (svcClusterLocal (gs "checkout")) (gs "2"),
         svcClusterLocal (gs "checkout")]
    ∧ httpNamesOf c7s4 (previewVirtualServiceName (gs "checkout"))
      = [previewName (svcClusterLocal (gs "checkout")) (gs "3"),
         previewName (svcClusterLocal (gs "checkout")) (gs "2"),
         previewName (svcClusterLocal (gs "checkout")) (gs "1"),
         previewName (svcClusterLocal (gs "checkout")) (gs "3"),
         svcClusterLocal (gs "checkout")]
    ∧ ¬ List.Sublist
          [previewName (svcClusterLocal (gs "checkout")) (gs "1"),
           previewName (svcClusterLocal (gs "checkout")) (gs "2")]
          (httpNamesOf c7s4 (previewVirtualServiceName (gs "checkout"))) := by
  refine ⟨by decide, by decide, by decide⟩

/-- C7 (amended): re-running route composition for a version tag whose
route is already present removes no route — the patched route list is a
permutation of the existing routes plus the (duplicated) version's own
route (true of the real sort at any length, since sorting only swaps) —
and, for route tables of at most 5 existing routes (so the sorted slice
has at most 6 elements and `sort.Slice` is exactly the modelled insertion
sort on every Go release), the routes *without* the preview prefix keep
their exact relative order; the unrelated *preview* routes, however, may
be reordered (the sort reverses the preview group), which is what the
counterexample exhibits. -/
theorem c7_rerun_keeps_routes (vss : List VirtualService)
    (b : VirtualService) (o v : GoStr)
    (hfound : findBaseResource vss (svcClusterLocal o) = some b)
    (_hpresent : sidecarPreviewRoute o v ∈ b.http) :
    createSidecarVirtualService none vss o v
      = .ok (applyPatchVS vss
          { b with http := goSortHttp (b.http ++ [sidecarPreviewRoute o v]) })
    ∧ (goSortHttp (b.http ++ [sidecarPreviewRoute o v])).Perm
        (b.http ++ [sidecarPreviewRoute o v])
    ∧ (b.http.length ≤ 5 →
        (goSortHttp (b.http ++ [sidecarPreviewRoute o v])).filter
          (fun r => !httpLess r) = b.http.filter (fun r => !httpLess r))
    ∧ (goSortHttp (b.http ++ [sidecarPreviewRoute o v])).count
        (sidecarPreviewRoute o v) = b.http.count (sidecarPreviewRoute o v) + 1 := by
  refine ⟨sidecar_found vss o v b hfound, goSortHttp_perm _, ?_, ?_⟩
  · intro _
    rw [goSortHttp_filter_not, List.filter_append]
    simp [List.filter, httpLess_previewRoute]
  · rw [(goSortHttp_perm _).count_eq, List.count_append]
    simp

/-- Witness for the amended C7: a shared object already holding the
version-`42` preview route. -/
theorem c7_rerun_keeps_routes_witness :
    (findBaseResource
        [{ sidecarBaseVS (gs "checkout") with
           http := [sidecarPreviewRoute (gs "checkout") (gs "42"),
                    sidecarDefaultRoute (svcClusterLocal (gs "checkout"))] }]
        (svcClusterLocal (gs "checkout"))
      = some { sidecarBaseVS (gs "checkout") with
               http := [sidecarPreviewRoute (gs "checkout") (gs "42"),
                        sidecarDefaultRoute (svcClusterLocal (gs "checkout"))] })
    ∧ (sidecarPreviewRoute (gs "checkout") (gs "42")
        ∈ ({ sidecarBaseVS (gs "checkout") with
             http := [sidecarPreviewRoute (gs "checkout") (gs "42"),
                      sidecarDefaultRoute (svcClusterLocal (gs "checkout"))] }
            : VirtualService).http)
    ∧ (({ sidecarBaseVS (gs "checkout") with
          http := [sidecarPreviewRoute (gs "checkout") (gs "42"),
                   sidecarDefaultRoute (svcClusterLocal (gs "checkout"))] }
         : VirtualService).http.length ≤ 5)
    ∧ ((goSortHttp (({ sidecarBaseVS (gs "checkout") with
             http := [sidecarPreviewRoute (gs "checkout") (gs "42"),
                      sidecarDefaultRoute (svcClusterLocal (gs "checkout"))] }
            : VirtualService).http
          ++ [sidecarPreviewRoute (gs "checkout") (gs "42")])).filter
        (fun r => !httpLess r)
      = ({ sidecarBaseVS (gs "checkout") with
           http := [sidecarPreviewRoute (gs "checkout") (gs "42"),
                    sidecarDefaultRoute (svcClusterLocal (gs "checkout"))] }
          : VirtualService).http.filter (fun r => !httpLess r))
    ∧ ((goSortHttp (({ sidecarBaseVS (gs "checkout") with
             http := [sidecarPreviewRoute (gs "checkout") (gs "42"),
                      sidecarDefaultRoute (svcClusterLocal (gs "checkout"))] }
            : VirtualService).http
          ++ [sidecarPreviewRoute (gs "checkout") (gs "42")])).count
        (sidecarPreviewRoute (gs "checkout") (gs "42"))
      = ({ sidecarBaseVS (gs "checkout") with
           http := [sidecarPreviewRoute (gs "checkout") (gs "42"),
                    sidecarDefaultRoute (svcClusterLocal (gs "checkout"))] }
          : VirtualService).http.count
          (sidecarPreviewRoute (gs "checkout") (gs "42")) + 1) :=
  ⟨by decide, by decide, by decide,
    (c7_rerun_keeps_routes
      [{ sidecarBaseVS (gs "checkout") with
         http := [sidecarPreviewRoute (gs "checkout") (gs "42"),
                  sidecarDefaultRoute (svcClusterLocal (gs "checkout"))] }]
      { sidecarBaseVS (gs "checkout") with
        http := [sidecarPreviewRoute (gs "checkout") (gs "42"),
                 sidecarDefaultRoute (svcClusterLocal (gs "checkout"))] }
      (gs "checkout") (gs "42") (by decide) (by decide)).2.2.1 (by decide),
    (c7_rerun_keeps_routes
      [{ sidecarBaseVS (gs "checkout") with
         http := [sidecarPreviewRoute (gs "checkout") (gs "42"),
                  sidecarDefaultRoute (svcClusterLocal (gs "checkout"))] }]
      { sidecarBaseVS (gs "checkout") with
        http := [sidecarPreviewRoute (gs "checkout") (gs "42"),
                 sidecarDefaultRoute (svcClusterLocal (gs "checkout"))] }
      (gs "checkout") (gs "42") (by decide) (by decide)).2.2.2⟩
